import Mathlib

/-!
Verification of the ROVE backend (GTFS ingestion, pattern synthesis and metric
calculation) against its natural-language specification.  The Python sources in
src/backend are shallowly embedded: dataframes become lists of structure rows,
pandas groupby and shift become explicit index searches, Python dicts become
association lists with last-value-wins insertion, missing values (NaN) become
Option, and raised exceptions become Except.
-/

set_option maxRecDepth 40000

namespace Rove

/-- One insertion into a Python dict held as an association list: a pair with
an already present key overwrites the stored value in place (the key keeps its
first position, as in CPython insertion-ordered dicts). -/
def pyDictStep {κ ν : Type} [DecidableEq κ] (acc : List (κ × ν)) (kv : κ × ν) :
    List (κ × ν) :=
  if (acc.map Prod.fst).contains kv.fst then
    acc.map (fun kv2 => if kv2.fst = kv.fst then (kv2.fst, kv.snd) else kv2)
  else acc ++ [kv]

/-- Build of a Python dict from a list of key-value pairs. -/
def pyDict {κ ν : Type} [DecidableEq κ] (l : List (κ × ν)) : List (κ × ν) :=
  l.foldl pyDictStep []

/-- Lookup in an association list (Python dict access, None when absent). -/
def dictGet {κ ν : Type} [DecidableEq κ] (d : List (κ × ν)) (k : κ) : Option ν :=
  (d.find? (fun kv => kv.fst = k)).map Prod.snd

/-- pandas drop_duplicates keeping the first occurrence of each value. -/
def dropDupFirst {α : Type} [DecidableEq α] (l : List α) : List α :=
  l.foldl (fun acc a => if a ∈ acc then acc else acc ++ [a]) []

/-- Whether positions i and j of the list hold rows of the same group key
(used to embed pandas groupby shift, which pairs each row with the nearest
row of the same group, not the nearest adjacent row). -/
def sameKeyIdx {α κ : Type} [DecidableEq κ] (key : α → κ) (l : List α) (i j : Nat) : Bool :=
  match l.get? i, l.get? j with
  | some a, some b => decide (key a = key b)
  | _, _ => false

/-- Position of the previous row of the same group (groupby shift by one). -/
def prevIdxBy {α κ : Type} [DecidableEq κ] (key : α → κ) (l : List α) (i : Nat) : Option Nat :=
  ((List.range i).filter (fun j => sameKeyIdx key l i j)).getLast?

/-- Position of the next row of the same group (groupby shift by minus one). -/
def nextIdxBy {α κ : Type} [DecidableEq κ] (key : α → κ) (l : List α) (i : Nat) : Option Nat :=
  ((List.range l.length).filter (fun j => decide (i < j) && sameKeyIdx key l i j)).head?

/-- Maximum of a list of naturals, 0 when empty. -/
def natMaxList (l : List Nat) : Nat := l.foldr max 0

/-- Skip-NaN maximum of a list of rationals (pandas max), none when empty. -/
def maxOptList : List ℚ → Option ℚ
  | [] => none
  | x :: xs =>
    match maxOptList xs with
    | none => some x
    | some m => some (max x m)

/-- Skip-NaN mean (pandas mean), none when the list is empty. -/
def meanOpt (l : List ℚ) : Option ℚ :=
  if l.isEmpty then none else some (l.sum / (l.length : ℚ))

/-- numpy rounding to zero decimals: round half to even. -/
def pyRound0 (q : ℚ) : ℚ :=
  let f : Int := ⌊q⌋
  if q - (f : ℚ) = 1/2 then (if f % 2 = 0 then (f : ℚ) else (f : ℚ) + 1)
  else ((round q : Int) : ℚ)

/-- NaN-propagating subtraction on nullable float cells. -/
def optSub : Option ℚ → Option ℚ → Option ℚ
  | some a, some b => some (a - b)
  | _, _ => none

/-- NaN-propagating multiplication on nullable float cells. -/
def optMul : Option ℚ → Option ℚ → Option ℚ
  | some a, some b => some (a * b)
  | _, _ => none

/-- NaN-propagating division on nullable float cells.  A zero divisor gives a
non-finite float in pandas; both that case and NaN are modelled as missing. -/
def optDiv : Option ℚ → Option ℚ → Option ℚ
  | some a, some b => if b = 0 then none else some (a / b)
  | _, _ => none

/-- Python exceptions that the embedded code can raise. -/
inductive PyError
  | valueError
  | keyError (k : String)
  | attributeError (a : String)
deriving Repr, DecidableEq

/-- View of an Except value as a sum, used to decide equality of results. -/
def exceptToSum {ε α : Type} : Except ε α → ε ⊕ α
  | Except.error e => Sum.inl e
  | Except.ok a => Sum.inr a

instance {ε α : Type} [DecidableEq ε] [DecidableEq α] : DecidableEq (Except ε α) :=
  fun a b => decidable_of_iff (exceptToSum a = exceptToSum b)
    (by cases a <;> cases b <;> simp [exceptToSum])

/-- Python attribute read on an object: error when never assigned. -/
def getattr {β : Type} (field : Option β) (name : String) : Except PyError β :=
  match field with
  | some v => Except.ok v
  | none => Except.error (PyError.attributeError name)

/-! ## GTFS records (src/backend/data_class/gtfs.py)

A row of the GTFS records table produced by GTFS.get_gtfs_records (stop_times
left-joined with trips, sorted by route_id, trip_id, stop_sequence) after the
timepoint column has been made canonical. -/

structure GRecord where
  trip_id : String
  route_id : String
  direction_id : Int
  stop_id : String
  stop_sequence : Int
  arrival_time : Int
  departure_time : Int
  timepoint : Nat
deriving Repr, DecidableEq

/-- gtfs.py line 276: the set of route ids of all records at a given stop. -/
def routesServing (recs : List GRecord) (s : String) : Finset String :=
  ((recs.filter (fun r => r.stop_id = s)).map (fun r => r.route_id)).toFinset

/-- gtfs.py line 280: routes at the row minus routes at the next same-trip row
(none embeds the NaN produced at the last row of a trip). -/
def routesDiffNext (recs : List GRecord) (i : Nat) : Option (Finset String) :=
  match recs.get? i, (nextIdxBy GRecord.trip_id recs i).bind recs.get? with
  | some r, some nr => some (routesServing recs r.stop_id \ routesServing recs nr.stop_id)
  | _, _ => none

/-- gtfs.py line 281: routes at the row minus routes at the previous same-trip
row (none embeds the NaN produced at the first row of a trip). -/
def routesDiffPrev (recs : List GRecord) (i : Nat) : Option (Finset String) :=
  match recs.get? i, (prevIdxBy GRecord.trip_id recs i).bind recs.get? with
  | some r, some pr => some (routesServing recs r.stop_id \ routesServing recs pr.stop_id)
  | _, _ => none

/-- gtfs.py lines 282-283: length of a route difference, 0 for NaN. -/
def diffLen (o : Option (Finset String)) : Nat := o.elim 0 Finset.card

/-- gtfs.py lines 287-288: the branchpoint flag of row i.  The equality test of
two NaN cells in pandas object columns is false, hence the match. -/
def branchpointFlag (recs : List GRecord) (i : Nat) : Nat :=
  let dn := routesDiffNext recs i
  let dp := routesDiffPrev recs i
  let eqd : Bool :=
    match dp, dn with
    | some a, some b => decide (a = b)
    | _, _ => false
  if (decide (0 < diffLen dn + diffLen dp) && !(eqd && decide (diffLen dp ≠ 0))) then 1 else 0

/-- gtfs.py lines 292-295: tp_bp before normalization; timepoint or branchpoint,
forced to 1 at the first and last row of each trip (groupby head and tail). -/
def tpbpForced (recs : List GRecord) (i : Nat) : Nat :=
  let base : Nat :=
    match recs.get? i with
    | some r => if r.timepoint = 1 || branchpointFlag recs i = 1 then 1 else 0
    | none => 0
  if (prevIdxBy GRecord.trip_id recs i).isNone || (nextIdxBy GRecord.trip_id recs i).isNone then 1
  else base

/-- gtfs.py lines 299-300: the lookup keyed by (route_id, stop_id) holding the
maximum forced tp_bp over the rows of the pair (sort then keep last). -/
def tpbpLookup (recs : List GRecord) (rs : String × String) : Nat :=
  natMaxList (((List.range recs.length).filter (fun j =>
    match recs.get? j with
    | some r => decide ((r.route_id, r.stop_id) = rs)
    | none => false)).map (tpbpForced recs))

/-- A row of the stored records table after GTFS.add_branchpoints returned:
the original columns plus branchpoint, tp_bp and the helper column route_stop. -/
structure BRecord where
  base : GRecord
  branchpoint : Nat
  tp_bp : Nat
  route_stop : String × String
deriving Repr, DecidableEq

/-- GTFS.add_branchpoints (gtfs.py lines 256-302).  The final statement of the
source, records = records.drop(columns=[route_stop]), rebinds the local name
records and is discarded; the stored table, returned here, keeps route_stop. -/
def add_branchpoints (recs : List GRecord) : List BRecord :=
  let out := recs.enum.map (fun ir =>
    { base := ir.snd
      branchpoint := branchpointFlag recs ir.fst
      tp_bp := tpbpLookup recs (ir.snd.route_id, ir.snd.stop_id)
      route_stop := (ir.snd.route_id, ir.snd.stop_id) : BRecord })
  let dropResult := out.map (fun b => (b.base, b.branchpoint, b.tp_bp))
  let _ := dropResult
  out

/-! ## Pattern generation (GTFS.generate_patterns, gtfs.py lines 304-358) -/

/-- Modelled from the spec: the function get_hash_of_stop_list is defined in
backend/helper_functions.py, which is not among the provided source files.
Section 4.2 of the spec requires an order-sensitive, at least 64-bit digest of
the ordered stop-id list.  We model it as a 64-bit polynomial rolling hash over
the characters of the stop ids, with a separator marker between ids. -/
def get_hash_of_stop_list (stop_ids : List String) : Nat :=
  stop_ids.foldl (fun h s =>
    s.data.foldl (fun h2 c => (h2 * 1000003 + c.toNat) % 18446744073709551616)
      ((h * 1000003 + 17) % 18446744073709551616)) 5381

/-- The distinct trip ids of the records table.  pandas groupby sorts the group
keys; every use below (dict lookups and distinct counts) is insensitive to the
order of this list, so first-appearance order is used. -/
def tripIdsInOrder (recs : List GRecord) : List String :=
  dropDupFirst (recs.map GRecord.trip_id)

/-- gtfs.py line 320: ordered stop ids of one trip (groupby apply list). -/
def stop_ids_of_trip (recs : List GRecord) (t : String) : List String :=
  (recs.filter (fun r => r.trip_id = t)).map GRecord.stop_id

/-- gtfs.py lines 320-321: one row per trip with its stop-id list. -/
def trip_stops (recs : List GRecord) : List (String × List String) :=
  (tripIdsInOrder recs).map (fun t => (t, stop_ids_of_trip recs t))

/-- gtfs.py line 324 left side: distinct hash values over the trips (nunique of
the hash column; str is injective on integers). -/
def nUniqueHashes (recs : List GRecord) : Nat :=
  (dropDupFirst ((trip_stops recs).map (fun ts => get_hash_of_stop_list ts.snd))).length

/-- gtfs.py line 324 right side: distinct ordered stop-id lists over the trips
(nunique of the stop_ids column after astype str; str is injective on lists of
strings). -/
def nUniqueStopSeqs (recs : List GRecord) : Nat :=
  (dropDupFirst ((trip_stops recs).map Prod.snd)).length

/-- gtfs.py line 333: the hash column of the records table, mapped from the
trip id of the row through the trip hash lookup. -/
def recHash (recs : List GRecord) (i : Nat) : Option Nat :=
  (recs.get? i).map (fun r => get_hash_of_stop_list (stop_ids_of_trip recs r.trip_id))

/-- The (route_id, direction_id, hash) triple of row i, the key of the
drop_duplicates call on gtfs.py line 334. -/
def tripleAt (recs : List GRecord) (i : Nat) : Option (String × Int × Nat) :=
  match recs.get? i, recHash recs i with
  | some r, some h => some (r.route_id, r.direction_id, h)
  | _, _ => none

/-- The (route_id, direction_id) pair of row i, the groupby key of gtfs.py
line 335. -/
def groupAt (recs : List GRecord) (i : Nat) : Option (String × Int) :=
  (recs.get? i).map (fun r => (r.route_id, r.direction_id))

/-- Whether row i is kept by drop_duplicates on (route_id, direction_id, hash):
no earlier row carries the same triple. -/
def isFirstOcc (recs : List GRecord) (i : Nat) : Bool :=
  (List.range i).all (fun j => decide (tripleAt recs j ≠ tripleAt recs i))

/-- The cumcount+1 value assigned at a kept row: one plus the number of earlier
kept rows in the same (route_id, direction_id) group. -/
def markedVal (recs : List GRecord) (i : Nat) : Nat :=
  1 + ((List.range i).filter (fun j =>
    isFirstOcc recs j && decide (groupAt recs j = groupAt recs i))).length

/-- gtfs.py lines 334-336: the hash_count column.  After the reindex only the
kept first-occurrence rows hold a value, and ffill copies the value of the
nearest such row at or above each row; this is a purely positional fill, not a
lookup through the hash of the row. -/
def hash_count (recs : List GRecord) (i : Nat) : Nat :=
  match ((List.range (i + 1)).filter (isFirstOcc recs)).getLast? with
  | some j => markedVal recs j
  | none => 0

/-- gtfs.py line 337: the pattern column of row i. -/
def patternAt (recs : List GRecord) (i : Nat) : Option String :=
  (recs.get? i).map (fun r =>
    r.route_id ++ "-" ++ toString r.direction_id ++ "-" ++ toString (hash_count recs i))

/-- gtfs.py line 341: dict from hash to stop-id list, built over trip_stops. -/
def hashStopsLookup (recs : List GRecord) : List (Nat × List String) :=
  pyDict ((trip_stops recs).map (fun ts => (get_hash_of_stop_list ts.snd, ts.snd)))

/-- gtfs.py lines 343-345: dict from pattern to stop-id list, built over the
records table (set_index to_dict, last row of each pattern wins). -/
def patternStopsLookup (recs : List GRecord) : List (String × List String) :=
  pyDict ((List.range recs.length).filterMap (fun i =>
    match patternAt recs i, (recHash recs i).bind (dictGet (hashStopsLookup recs)) with
    | some p, some sids => some (p, sids)
    | _, _ => none))

/-- A row of the validated GTFS stops table as used by generate_patterns. -/
structure StopRow where
  stop_id : String
  stop_name : String
  stop_lat : ℚ
  stop_lon : ℚ
deriving Repr, DecidableEq

/-- gtfs.py lines 349-351: dict from stop id to coordinates, built from the
three projected columns after drop_duplicates (last distinct row wins). -/
def stopCoordsLookup (stops : List StopRow) : List (String × (ℚ × ℚ)) :=
  pyDict (dropDupFirst (stops.map (fun s => (s.stop_id, (s.stop_lat, s.stop_lon)))))

/-- Python dict access stop_coords_lookup[stop_id], raising KeyError. -/
def lookupCoord (stops : List StopRow) (s : String) : Except PyError (ℚ × ℚ) :=
  match dictGet (stopCoordsLookup stops) s with
  | some c => Except.ok c
  | none => Except.error (PyError.keyError s)

/-- gtfs.py lines 355-356 inner comprehension: the segment dict of one stop-id
list, mapping each consecutive pair to its two stop coordinates. -/
def segmentsOf (stops : List StopRow) (sids : List String) :
    Except PyError (List ((String × String) × List (ℚ × ℚ))) :=
  ((sids.zip sids.tail).mapM (fun (ab : String × String) => do
    let ca ← lookupCoord stops ab.fst
    let cb ← lookupCoord stops ab.snd
    return (ab, [ca, cb]))).map pyDict

/-- GTFS.generate_patterns (gtfs.py lines 304-358): check hash injectivity
(raise ValueError on mismatch), then build the pattern dict from the pattern
stop lists and the stop coordinates. -/
def generate_patterns (stops : List StopRow) (recs : List GRecord) :
    Except PyError (List (String × List ((String × String) × List (ℚ × ℚ)))) :=
  if nUniqueHashes recs ≠ nUniqueStopSeqs recs then Except.error PyError.valueError
  else
    (patternStopsLookup recs).mapM (fun ps =>
      (segmentsOf stops ps.snd).map (fun segs => (ps.fst, segs)))

/-! ## Data validation (GTFS.validate_data, gtfs.py lines 200-218) -/

/-- A cell of a raw GTFS table: null (NaN), a string, an integer or a float. -/
inductive RawCell
  | null
  | str (s : String)
  | intval (n : Int)
  | floatval (q : ℚ)
deriving Repr, DecidableEq

/-- A raw GTFS table: its name in the data dict, its column names, and its
rows (each row lists its cells in column order). -/
structure RawTable where
  name : String
  cols : List String
  rows : List (List RawCell)
deriving Repr, DecidableEq

/-- GTFS.REQUIRED_DATA_SPEC (gtfs.py lines 29-54). -/
def REQUIRED_DATA_SPEC : List (String × List (String × String)) :=
  [("stops", [("stop_id", "string"), ("stop_name", "string"),
              ("stop_lat", "float64"), ("stop_lon", "float64")]),
   ("routes", [("route_id", "string"), ("route_type", "int64")]),
   ("trips", [("route_id", "string"), ("service_id", "string"),
              ("trip_id", "string"), ("direction_id", "int64")]),
   ("stop_times", [("trip_id", "string"), ("arrival_time", "int64"),
                   ("departure_time", "int64"), ("stop_id", "string"),
                   ("stop_sequence", "int64")])]

/-- GTFS.OPTIONAL_DATA_SPEC (gtfs.py lines 57-64). -/
def OPTIONAL_DATA_SPEC : List (String × List (String × String)) :=
  [("shapes", [("shape_id", "string"), ("shape_pt_lat", "float64"),
               ("shape_pt_lon", "float64"), ("shape_pt_sequence", "int64")])]

/-- gtfs.py line 208: the merged spec dict (the two key sets are disjoint). -/
def data_specs : List (String × List (String × String)) :=
  REQUIRED_DATA_SPEC ++ OPTIONAL_DATA_SPEC

/-- The cell of a row under a given column name, none when the table has no
such column. -/
def cellAt (t : RawTable) (row : List RawCell) (c : String) : Option RawCell :=
  (t.cols.indexOf? c).bind row.get?

/-- gtfs.py line 215: dropna on the subset of string-typed key columns. -/
def dropnaSubset (t : RawTable) (subset : List String) : RawTable :=
  { t with rows := t.rows.filter (fun row => subset.all (fun c =>
      match cellAt t row c with
      | some RawCell.null => false
      | _ => true)) }

/-- Decimal digits parsed to a natural, none when empty or non-numeric. -/
def parseDigits (cs : List Char) : Option Nat :=
  if cs.isEmpty || !(cs.all Char.isDigit) then none
  else some (cs.foldl (fun acc c => acc * 10 + (c.toNat - 48)) 0)

/-- Integer parse of a decimal string, none when malformed. -/
def strToInt? (s : String) : Option Int :=
  match s.data with
  | '-' :: rest => (parseDigits rest).map (fun n => -(n : Int))
  | cs => (parseDigits cs).map (fun n => (n : Int))

/-- One cell coerced by pandas astype to a declared dtype, none when the
conversion raises (for example a non-numeric string under int64, or NaN under
int64). -/
def coerceCell : RawCell → String → Option RawCell
  | RawCell.null, "string" => some RawCell.null
  | RawCell.null, "float64" => some RawCell.null
  | RawCell.null, _ => none
  | RawCell.str s, "string" => some (RawCell.str s)
  | RawCell.str s, "int64" => (strToInt? s).map RawCell.intval
  | RawCell.str s, "float64" => (strToInt? s).map (fun n => RawCell.floatval (n : ℚ))
  | RawCell.intval n, "string" => some (RawCell.str (toString n))
  | RawCell.intval n, "int64" => some (RawCell.intval n)
  | RawCell.intval n, "float64" => some (RawCell.floatval (n : ℚ))
  | RawCell.floatval q, "string" => some (RawCell.str (toString q))
  | RawCell.floatval q, "int64" =>
      if q.den = 1 then some (RawCell.intval q.num) else none
  | RawCell.floatval q, "float64" => some (RawCell.floatval q)
  | _, _ => none

/-- gtfs.py line 216: astype of the spec columns of a table; a KeyError when a
spec column is absent, a ValueError when a cell cannot be converted. -/
def astypeTable (t : RawTable) (spec : List (String × String)) :
    Except PyError RawTable :=
  if ¬ spec.all (fun cd => t.cols.contains cd.fst) then
    Except.error (PyError.keyError "column")
  else
    match t.rows.mapM (fun row => (List.range t.cols.length).mapM (fun ci =>
      match dictGet spec (t.cols.getD ci ""), row.get? ci with
      | some dty, some cell => coerceCell cell dty
      | none, some cell => some cell
      | _, none => none)) with
    | some rows2 => Except.ok { t with rows := rows2 }
    | none => Except.error PyError.valueError

/-- The loop body of GTFS.validate_data for one table.  It rebinds the
loop-local name df: first to the dropna result, then mutates that copy with
astype.  The dict entry data[table_name] is never reassigned, so the original
(deep-copied) table is kept and the cleaned table df3 is discarded.  Only an
astype exception escapes. -/
def validateTable (df : RawTable) : Except PyError RawTable :=
  match dictGet data_specs df.name with
  | none => Except.error (PyError.keyError df.name)
  | some spec =>
    let id_cols := (spec.filter (fun cd => cd.snd = "string")).map Prod.fst
    let df2 := dropnaSubset df id_cols
    match astypeTable df2 spec with
    | Except.error e => Except.error e
    | Except.ok df3 =>
      let _ := df3
      Except.ok df

/-- GTFS.validate_data (gtfs.py lines 200-218): the loop over the deep-copied
data dict. -/
def validate_data (data : List RawTable) : Except PyError (List RawTable) :=
  data.mapM validateTable

/-! ## Shape enrichment (GTFS.improve_pattern_with_shapes, gtfs.py 360-427) -/

/-- GTFS.__find_nearest_point (gtfs.py lines 425-427): index of the point of
the list nearest to the given coordinate (squared Euclidean distance in degree
space; numpy argmin keeps the first index on ties, and we return 0 for an
empty list, which the pipeline never passes). -/
def find_nearest_point (coord_list : List (ℚ × ℚ)) (coord : ℚ × ℚ) : Nat :=
  let sq := fun (p : ℚ × ℚ) => (p.1 - coord.1) ^ 2 + (p.2 - coord.2) ^ 2
  ((coord_list.enum.foldl (fun acc ip =>
    match acc with
    | none => some (ip.fst, sq ip.snd)
    | some (bi, bd) => if sq ip.snd < bd then some (ip.fst, sq ip.snd) else some (bi, bd))
    none).map Prod.fst).getD 0

/-- The per-pattern loop body of improve_pattern_with_shapes (gtfs.py lines
408-421): walk the segments in order; match the segment endpoints against the
remaining shape, slice the remaining shape between the matches, keep the slice
when it has more than two points, and truncate the remaining shape to start at
the end match.  The polyline of a segment from generate_patterns always has at
least two points; coord_list[0] and coord_list[-1] are embedded with default
(0, 0) on the empty list, which the pipeline never passes. -/
def improveSegments (shape : List (ℚ × ℚ)) :
    List ((String × String) × List (ℚ × ℚ)) → List ((String × String) × List (ℚ × ℚ))
  | [] => []
  | (k, cl) :: rest =>
    let fi := find_nearest_point shape (cl.headI)
    let li := find_nearest_point shape (cl.getLastI)
    let inter := (shape.drop fi).take (li + 1 - fi)
    let segNew := if 2 < inter.length then inter else cl
    (k, segNew) :: improveSegments (shape.drop li) rest

/-- Specification-side rendition of the same walk: the global (start, end)
match indices of each segment into the original, untruncated shape.  The
offset carried along is the global end index of the previous segment. -/
def globalMatches (shape0 : List (ℚ × ℚ)) (off : Nat) :
    List ((String × String) × List (ℚ × ℚ)) → List (Nat × Nat)
  | [] => []
  | (_, cl) :: rest =>
    let fi := find_nearest_point (shape0.drop off) (cl.headI)
    let li := find_nearest_point (shape0.drop off) (cl.getLastI)
    (off + fi, off + li) :: globalMatches shape0 (off + li) rest

/-- GTFS.improve_pattern_with_shapes (gtfs.py lines 360-423) at dict level.
The representative shape of a pattern is the shape id of the first of its
trips that has one (gtfs.py line 396); a pattern with no example shape or an
unknown shape id is left unchanged (the two continue branches). -/
def improve_pattern_with_shapes
    (patterns : List (String × List ((String × String) × List (ℚ × ℚ))))
    (pattern_trips : String → List String)
    (trip_shape : String → Option String)
    (shape_coords : String → Option (List (ℚ × ℚ))) :
    List (String × List ((String × String) × List (ℚ × ℚ))) :=
  patterns.map (fun pse =>
    match ((pattern_trips pse.fst).filterMap trip_shape).head? with
    | none => pse
    | some sid =>
      match shape_coords sid with
      | none => pse
      | some sc => (pse.fst, improveSegments sc pse.snd))

/-! ## Metric calculation (src/backend/metrics/metric_calculation.py) -/

/-- A row of the GTFS records table handed to Metric_Calculation. -/
structure MCRecord where
  trip_id : String
  route_id : String
  direction_id : Int
  service_id : String
  pattern : String
  stop_id : String
  stop_sequence : Int
  arrival_time : Int
  departure_time : Int
  trip_start_time : Int
  trip_end_time : Int
  timepoint : Nat
  tp_bp : Nat
deriving Repr, DecidableEq

/-- A row of the shapes table from shape generation. -/
structure ShapeRow where
  pattern : String
  stop_pair : String × String
  distance : ℚ
deriving Repr, DecidableEq

/-- A row of the AVL records table. -/
structure AVLRecord where
  svc_date : String
  trip_id : String
  stop_id : String
  stop_sequence : Int
  stop_time : Int
  dwell_time : ℚ
  passenger_load : ℚ
  passenger_on : ℚ
  passenger_off : ℚ
  seat_capacity : ℚ
  route_id : String
deriving Repr, DecidableEq

/-- A record with the three columns added by __prepare_stop_event_records. -/
structure PrepRow (α : Type) where
  base : α
  next_stop : String
  next_stop_arrival_time : Int
  stop_pair : String × String
deriving Repr, DecidableEq

/-- Metric_Calculation.__prepare_stop_event_records (metric_calculation.py
lines 89-119): within each group (trip_id for GTFS, svc_date and trip_id for
AVL) in row order, add next_stop, next_stop_arrival_time and stop_pair, and
drop the rows with no next stop. -/
def prepare_stop_event_records {α κ : Type} [DecidableEq κ]
    (key : α → κ) (stopIdOf : α → String) (arrTimeOf : α → Int)
    (recs : List α) : List (PrepRow α) :=
  (List.range recs.length).filterMap (fun i =>
    match recs.get? i, (nextIdxBy key recs i).bind recs.get? with
    | some r, some nr =>
      some { base := r, next_stop := stopIdOf nr, next_stop_arrival_time := arrTimeOf nr,
             stop_pair := (stopIdOf r, stopIdOf nr) }
    | _, _ => none)

/-- A row of the initial route-level metrics table that line 46 of
metric_calculation.py would build: the key columns plus the trip times. -/
structure RouteKeyRow where
  pattern : String
  route_id : String
  direction_id : Int
  trip_id : String
  trip_start_time : Int
  trip_end_time : Int
deriving Repr, DecidableEq

/-- The attribute environment of a Metric_Calculation object: one field per
attribute that the constructor can assign before its first failing read; each
starts unassigned. -/
structure MCState where
  stop_metrics : Option (List (PrepRow MCRecord)) := none
  tpbp_metrics : Option (List (PrepRow MCRecord)) := none
  gtfs_stop_metrics : Option (List (PrepRow MCRecord)) := none
  gtfs_route_metrics : Option (List RouteKeyRow) := none
deriving Repr, DecidableEq

/-- Metric_Calculation.__init__ (metric_calculation.py lines 36-87).  Line 40
assigns self.stop_metrics, line 42 assigns self.tpbp_metrics, and line 46
reads self.gtfs_stop_metrics, an attribute no statement of the class ever
assigns, so the read raises AttributeError.  The statements after line 46
(route table build, AVL preparation, the metric methods) are unreachable on
every input and cannot affect the result, so the model ends at the projection
that line 46 would compute from the read attribute. -/
def mc_init (shapes : List ShapeRow) (gtfs_records : List MCRecord)
    (avl_records : Option (List AVLRecord)) (data_option : List String) :
    Except PyError MCState := do
  let _ := shapes
  let _ := avl_records
  let _ := data_option
  let st0 : MCState := {}
  let sm := prepare_stop_event_records MCRecord.trip_id MCRecord.stop_id
    MCRecord.arrival_time gtfs_records
  let st1 := { st0 with stop_metrics := some sm }
  let tm := prepare_stop_event_records MCRecord.trip_id MCRecord.stop_id
    MCRecord.arrival_time (gtfs_records.filter (fun r => r.tp_bp = 1))
  let st2 := { st1 with tpbp_metrics := some tm }
  let gsm ← getattr st2.gtfs_stop_metrics "gtfs_stop_metrics"
  let grm := dropDupFirst (gsm.map (fun p =>
    { pattern := p.base.pattern, route_id := p.base.route_id,
      direction_id := p.base.direction_id, trip_id := p.base.trip_id,
      trip_start_time := p.base.trip_start_time,
      trip_end_time := p.base.trip_end_time : RouteKeyRow }))
  Except.ok { st2 with gtfs_route_metrics := some grm }

/-! ## on_time_performance (metric_calculation.py lines 315-346) -/

/-- An AVL record after preparation, with the columns on_time_performance
reads. -/
structure AVLPrep where
  svc_date : String
  route_id : String
  trip_id : String
  stop_pair : String × String
  stop_time : Int
deriving Repr, DecidableEq

/-- A stop-metrics row with the columns on_time_performance reads and the
column it writes. -/
structure StopMetricRow where
  route_id : String
  trip_id : String
  stop_pair : String × String
  arrival_time : Int
  on_time_performance : Option ℚ := none
deriving Repr, DecidableEq

/-- A route-metrics row with the column on_time_performance writes. -/
structure RouteMetricRow where
  route_id : String
  trip_id : String
  on_time_performance : Option ℚ := none
deriving Repr, DecidableEq

/-- The attribute environment on_time_performance runs against; avl_records
is optional because no statement of the class assigns it. -/
structure OTPState where
  avl_records : Option (List AVLPrep) := none
  stop_metrics : List StopMetricRow
  route_metrics : List RouteMetricRow
deriving Repr, DecidableEq

/-- The left merge of the AVL rows with the stop-metrics arrival times
(metric_calculation.py line 331) followed by the delay column of line 332:
each AVL row is paired with the arrival time of every matching stop-metrics
row, or with none when no row matches. -/
def otpMerged (avl : List AVLPrep) (sm : List StopMetricRow) :
    List (AVLPrep × Option Int) :=
  avl.flatMap (fun a =>
    match sm.filter (fun s =>
      s.route_id = a.route_id && s.trip_id = a.trip_id && decide (s.stop_pair = a.stop_pair)) with
    | [] => [(a, none)]
    | ms => ms.map (fun s => (a, some (a.stop_time - s.arrival_time))))

/-- metric_calculation.py line 338: the is_on_time flag of a merged row; a NaN
delay compares false on both sides and yields 0. -/
def isOnTimeFlag (ne nl : Int) (d : Option Int) : Nat :=
  match d with
  | some v => if ne * 60 < v ∧ v < nl * 60 then 1 else 0
  | none => 0

/-- Metric_Calculation.on_time_performance (metric_calculation.py lines
315-346).  The bounds are validated first (line 328) and the ValueError is
raised before any metric column is written; afterwards the stop-level delay
means and the route-level on-time percentages are computed and merged into
the two metric tables. -/
def on_time_performance (ne nl : Int) (st : OTPState) : Except PyError OTPState :=
  if ne > 0 ∨ nl < 0 then Except.error PyError.valueError
  else do
    let avl ← getattr st.avl_records "avl_records"
    let merged := otpMerged avl st.stop_metrics
    let newStop := st.stop_metrics.map (fun s =>
      let grp := merged.filter (fun p =>
        p.fst.route_id = s.route_id && p.fst.trip_id = s.trip_id &&
          decide (p.fst.stop_pair = s.stop_pair))
      let m := (meanOpt (grp.filterMap (fun p => p.snd.map (fun v => (v : ℚ))))).map pyRound0
      { s with on_time_performance := m })
    let dateKeys := dropDupFirst (merged.map (fun p =>
      (p.fst.svc_date, p.fst.route_id, p.fst.trip_id)))
    let routePct : List ((String × String × String) × ℚ) := dateKeys.map (fun k =>
      let grp := merged.filter (fun p =>
        p.fst.svc_date = k.fst && p.fst.route_id = k.snd.fst && p.fst.trip_id = k.snd.snd)
      (k, ((grp.map (fun p => ((isOnTimeFlag ne nl p.snd : ℚ)))).sum / (grp.length : ℚ)) * 100))
    let newRoute := st.route_metrics.map (fun r =>
      let grp := routePct.filter (fun kp =>
        kp.fst.snd.fst = r.route_id && kp.fst.snd.snd = r.trip_id)
      let m := (meanOpt (grp.map Prod.snd)).map pyRound0
      { r with on_time_performance := m })
    Except.ok { st with stop_metrics := newStop, route_metrics := newRoute }

/-- on_time_performance called with the Python default arguments
no_earlier_than=-1, no_later_than=5 (metric_calculation.py line 315). -/
def on_time_performance_default (st : OTPState) : Except PyError OTPState :=
  on_time_performance (-1) 5 st

/-! ## congestion_delay (metric_calculation.py lines 385-399) -/

/-- metric_calculation.py lines 11-17: the unit constants, embedded as the
exact rationals the decimal literals denote. -/
def FT_PER_MIN_TO_MPH : ℚ := 113636 / 10000000

def FEET_TO_MILES : ℚ := 189394 / 1000000000

def MAX_SPEED_MPH : ℚ := 65

def MEAN_SPEED_MPH : ℚ := 30

/-- The columns of a stop-metrics row that congestion_delay reads. -/
structure CDRow where
  stop_pair : String × String
  stop_spacing : Option ℚ
  observed_speed_without_dwell : Option ℚ
  passenger_load : Option ℚ
deriving Repr, DecidableEq

/-- A stop-metrics row after congestion_delay, with the five written
columns. -/
structure CDOut where
  base : CDRow
  free_flow_speed : Option ℚ
  free_flow_travel_time : Option ℚ
  observed_travel_time : Option ℚ
  vehicle_congestion_delay : Option ℚ
  passenger_congestion_delay : Option ℚ
deriving Repr, DecidableEq

/-- metric_calculation.py lines 391-392: transform max of the observed speed
within the stop_pair group (skip NaN), clip at 65, fill NaN with 30. -/
def ffsOf (rows : List CDRow) (sp : String × String) : ℚ :=
  match maxOptList ((rows.filter (fun r => r.stop_pair = sp)).filterMap
      (fun r => r.observed_speed_without_dwell)) with
  | some m => min m MAX_SPEED_MPH
  | none => MEAN_SPEED_MPH

/-- Metric_Calculation.congestion_delay (metric_calculation.py lines
385-399). -/
def congestion_delay (rows : List CDRow) : List CDOut :=
  rows.map (fun r =>
    let ffs : ℚ := ffsOf rows r.stop_pair
    let fftt := optDiv r.stop_spacing (some (ffs / FT_PER_MIN_TO_MPH))
    let ott := optDiv r.stop_spacing (optDiv r.observed_speed_without_dwell
      (some FT_PER_MIN_TO_MPH))
    let vcd := optDiv (optSub ott fftt) (optMul r.stop_spacing (some FEET_TO_MILES))
    let pcd := optMul vcd r.passenger_load
    { base := r, free_flow_speed := some ffs, free_flow_travel_time := fftt,
      observed_travel_time := ott, vehicle_congestion_delay := vcd,
      passenger_congestion_delay := pcd })

/-! ## Concrete input tables used by witnesses and counterexamples -/

/-- One route R, direction 0, three trips in trip-id order: t1 and t3 both run
stops A, B while t2 runs A, C.  The records are sorted by route_id, trip_id,
stop_sequence as get_gtfs_records produces them. -/
def c1records : List GRecord :=
  [{ trip_id := "t1", route_id := "R", direction_id := 0, stop_id := "A",
     stop_sequence := 1, arrival_time := 0, departure_time := 0, timepoint := 1 },
   { trip_id := "t1", route_id := "R", direction_id := 0, stop_id := "B",
     stop_sequence := 2, arrival_time := 300, departure_time := 300, timepoint := 1 },
   { trip_id := "t2", route_id := "R", direction_id := 0, stop_id := "A",
     stop_sequence := 1, arrival_time := 600, departure_time := 600, timepoint := 1 },
   { trip_id := "t2", route_id := "R", direction_id := 0, stop_id := "C",
     stop_sequence := 2, arrival_time := 900, departure_time := 900, timepoint := 1 },
   { trip_id := "t3", route_id := "R", direction_id := 0, stop_id := "A",
     stop_sequence := 1, arrival_time := 1200, departure_time := 1200, timepoint := 1 },
   { trip_id := "t3", route_id := "R", direction_id := 0, stop_id := "B",
     stop_sequence := 2, arrival_time := 1500, departure_time := 1500, timepoint := 1 }]

/-- The branchpoint scenario of the spec: route R1 trip T1 over A, B, C, D and
route R2 trip T2 over A, B, E, D. -/
def c4records : List GRecord :=
  [{ trip_id := "T1", route_id := "R1", direction_id := 0, stop_id := "A",
     stop_sequence := 1, arrival_time := 0, departure_time := 0, timepoint := 0 },
   { trip_id := "T1", route_id := "R1", direction_id := 0, stop_id := "B",
     stop_sequence := 2, arrival_time := 60, departure_time := 60, timepoint := 0 },
   { trip_id := "T1", route_id := "R1", direction_id := 0, stop_id := "C",
     stop_sequence := 3, arrival_time := 120, departure_time := 120, timepoint := 0 },
   { trip_id := "T1", route_id := "R1", direction_id := 0, stop_id := "D",
     stop_sequence := 4, arrival_time := 180, departure_time := 180, timepoint := 0 },
   { trip_id := "T2", route_id := "R2", direction_id := 0, stop_id := "A",
     stop_sequence := 1, arrival_time := 0, departure_time := 0, timepoint := 0 },
   { trip_id := "T2", route_id := "R2", direction_id := 0, stop_id := "B",
     stop_sequence := 2, arrival_time := 60, departure_time := 60, timepoint := 0 },
   { trip_id := "T2", route_id := "R2", direction_id := 0, stop_id := "E",
     stop_sequence := 3, arrival_time := 120, departure_time := 120, timepoint := 0 },
   { trip_id := "T2", route_id := "R2", direction_id := 0, stop_id := "D",
     stop_sequence := 4, arrival_time := 180, departure_time := 180, timepoint := 0 }]

/-- A minimal records table for the tp_bp witness: one trip of two stops. -/
def c5records : List GRecord :=
  [{ trip_id := "t1", route_id := "R", direction_id := 0, stop_id := "A",
     stop_sequence := 1, arrival_time := 0, departure_time := 0, timepoint := 0 },
   { trip_id := "t1", route_id := "R", direction_id := 0, stop_id := "B",
     stop_sequence := 2, arrival_time := 60, departure_time := 60, timepoint := 0 }]

/-- Segment dict of one pattern: two consecutive segments A-B and B-C. -/
def c6segments : List ((String × String) × List (ℚ × ℚ)) :=
  [(("A", "B"), [(0, 0), (3, 0)]), (("B", "C"), [(3, 0), (6, 0)])]

/-- A seven-point shape polyline along the segments of c6segments. -/
def c6shape : List (ℚ × ℚ) :=
  [(0, 0), (1, 0), (2, 0), (3, 0), (4, 0), (5, 0), (6, 0)]

/-- A pattern dict holding the single pattern P1. -/
def c6patterns : List (String × List ((String × String) × List (ℚ × ℚ))) :=
  [("P1", c6segments)]

/-- Pattern-to-trips lookup for the shape witness. -/
def c6pattern_trips : String → List String := fun _ => ["tA"]

/-- Trip-to-shape-id lookup for the shape witness. -/
def c6trip_shape : String → Option String :=
  fun t => if t = "tA" then some "S1" else none

/-- Shape-id-to-coordinates lookup for the shape witness. -/
def c6shape_coords : String → Option (List (ℚ × ℚ)) :=
  fun s => if s = "S1" then some c6shape else none

/-- Stops table covering the stop ids of c7records. -/
def c7stops : List StopRow :=
  [{ stop_id := "A", stop_name := "a", stop_lat := 1, stop_lon := 2 },
   { stop_id := "B", stop_name := "b", stop_lat := 3, stop_lon := 4 }]

/-- A single trip over stops A, B. -/
def c7records : List GRecord :=
  [{ trip_id := "t1", route_id := "R", direction_id := 0, stop_id := "A",
     stop_sequence := 1, arrival_time := 0, departure_time := 0, timepoint := 1 },
   { trip_id := "t1", route_id := "R", direction_id := 0, stop_id := "B",
     stop_sequence := 2, arrival_time := 60, departure_time := 60, timepoint := 1 }]

/-- Raw data dict for the validate_data evaluation: a stops table whose first
row has a null stop_id (the spec says it must be dropped) and whose second row
holds stop_lat as the string "3" (the spec says it must be coerced to float). -/
def c2example : List RawTable :=
  [{ name := "stops",
     cols := ["stop_id", "stop_name", "stop_lat", "stop_lon"],
     rows := [[RawCell.null, RawCell.str "x", RawCell.floatval 1, RawCell.floatval 2],
              [RawCell.str "s1", RawCell.str "n1", RawCell.str "3", RawCell.floatval 2]] }]

/-- An on_time_performance attribute state for the witness. -/
def c8state : OTPState :=
  { avl_records := none, stop_metrics := [], route_metrics := [] }

/-- Two stop-metrics rows sharing the stop pair A-B, with defined spacing,
observed speed and passenger load. -/
def c9rows : List CDRow :=
  [{ stop_pair := ("A", "B"), stop_spacing := some 1000,
     observed_speed_without_dwell := some 20, passenger_load := some 5 },
   { stop_pair := ("A", "B"), stop_spacing := some 1000,
     observed_speed_without_dwell := some 40, passenger_load := some 2 }]

/-! ## Helper lemmas -/

theorem enum_map_snd_comp {α β : Type} (l : List α) (g : α → β) :
    l.enum.map (fun p => g p.snd) = l.map g := by
  have h0 : (fun p : Nat × α => g p.snd) = g ∘ Prod.snd := rfl
  rw [h0, ← List.map_map, List.enum_map_snd]

theorem get?_map' {α β : Type} (l : List α) (f : α → β) (i : Nat) :
    (l.map f).get? i = (l.get? i).map f := by
  simp [List.get?_eq_getElem?]

theorem get?_enum' {α : Type} (l : List α) (i : Nat) :
    l.enum.get? i = (l.get? i).map (fun a => (i, a)) := by
  simp [List.get?_eq_getElem?, List.getElem?_enum]

/-- The row of add_branchpoints at a valid position. -/
theorem add_branchpoints_get? (recs : List GRecord) (i : Nat) (r : GRecord)
    (h : recs.get? i = some r) :
    (add_branchpoints recs).get? i = some
      { base := r, branchpoint := branchpointFlag recs i,
        tp_bp := tpbpLookup recs (r.route_id, r.stop_id),
        route_stop := (r.route_id, r.stop_id) } := by
  unfold add_branchpoints
  rw [get?_map', get?_enum', h]
  rfl

theorem le_natMaxList {l : List Nat} {x : Nat} (h : x ∈ l) : x ≤ natMaxList l := by
  induction l with
  | nil => cases h
  | cons a t ih =>
    rcases List.mem_cons.mp h with rfl | ht
    · exact Nat.le_max_left _ _
    · exact Nat.le_trans (ih ht) (Nat.le_max_right _ _)

theorem natMaxList_le {l : List Nat} {b : Nat} (h : ∀ x ∈ l, x ≤ b) :
    natMaxList l ≤ b := by
  induction l with
  | nil => exact Nat.zero_le b
  | cons a t ih =>
    exact Nat.max_le.mpr ⟨h a (List.mem_cons_self a t), ih (fun x hx => h x (List.mem_cons_of_mem a hx))⟩

theorem natMaxList_mem {l : List Nat} (h : l ≠ []) : natMaxList l ∈ l := by
  induction l with
  | nil => exact absurd rfl h
  | cons a t ih =>
    cases t with
    | nil => simp [natMaxList]
    | cons b t2 =>
      have hmax : natMaxList (a :: b :: t2) = max a (natMaxList (b :: t2)) := rfl
      by_cases hle : a ≤ natMaxList (b :: t2)
      · rw [hmax, max_eq_right hle]
        exact List.mem_cons_of_mem _ (ih (by simp))
      · rw [hmax, max_eq_left (le_of_not_le hle)]
        exact List.mem_cons_self _ _

theorem tpbpForced_le_one (recs : List GRecord) (i : Nat) :
    tpbpForced recs i ≤ 1 := by
  unfold tpbpForced
  repeat' split
  all_goals simp

theorem mapM_except_id {α ε : Type} (f : α → Except ε α)
    (hf : ∀ a, f a = Except.ok a ∨ ∃ e, f a = Except.error e) (l : List α) :
    l.mapM f = Except.ok l ∨ ∃ e, l.mapM f = Except.error e := by
  induction l with
  | nil => left; rfl
  | cons a t ih =>
    rw [List.mapM_cons]
    rcases hf a with ha | ⟨e, ha⟩
    · rw [ha]
      rcases ih with ht | ⟨e, ht⟩
      · left; rw [ht]; rfl
      · right; exact ⟨e, by rw [ht]; rfl⟩
    · right; exact ⟨e, by rw [ha]; rfl⟩

theorem validateTable_ok_or_error (df : RawTable) :
    validateTable df = Except.ok df ∨ ∃ e, validateTable df = Except.error e := by
  unfold validateTable
  cases h : dictGet data_specs df.name with
  | none => right; exact ⟨_, rfl⟩
  | some spec =>
    dsimp only
    cases h2 : astypeTable (dropnaSubset df
        ((spec.filter (fun cd => cd.snd = "string")).map Prod.fst)) spec with
    | error e => right; exact ⟨e, rfl⟩
    | ok df3 => left; rfl

theorem routesDiffNext_interior (recs : List GRecord) (i ni : Nat) (r nr : GRecord)
    (hi : recs.get? i = some r) (hn : nextIdxBy GRecord.trip_id recs i = some ni)
    (hnr : recs.get? ni = some nr) :
    routesDiffNext recs i =
      some (routesServing recs r.stop_id \ routesServing recs nr.stop_id) := by
  unfold routesDiffNext
  rw [hi, hn]
  simp only [Option.some_bind]
  rw [hnr]

theorem routesDiffPrev_interior (recs : List GRecord) (i pi : Nat) (r pr : GRecord)
    (hi : recs.get? i = some r) (hp : prevIdxBy GRecord.trip_id recs i = some pi)
    (hpr : recs.get? pi = some pr) :
    routesDiffPrev recs i =
      some (routesServing recs r.stop_id \ routesServing recs pr.stop_id) := by
  unfold routesDiffPrev
  rw [hi, hp]
  simp only [Option.some_bind]
  rw [hpr]

theorem branchpoint_bool_bridge (a b : Finset String) :
    ((if (decide (0 < b.card + a.card) && !(decide (a = b) && decide (a.card ≠ 0)))
        then (1 : Nat) else 0) = 1 ↔
      (0 < b.card + a.card ∧ ¬(a = b ∧ a.Nonempty))) := by
  by_cases h1 : 0 < b.card + a.card
  · by_cases h2 : a = b
    · by_cases h3 : a.card ≠ 0
      · simp [h1, h2, h3, Finset.card_ne_zero.mp h3]
      · have ha : ¬ a.Nonempty := by
          rw [← Finset.card_ne_zero]
          exact fun hc => h3 hc
        simp [h1, h2, h3, ha]
    · simp [h1, h2]
  · simp [h1]

theorem tpbpForced_eq_one_of_edge (recs : List GRecord) (i : Nat)
    (h : (prevIdxBy GRecord.trip_id recs i).isNone ∨
         (nextIdxBy GRecord.trip_id recs i).isNone) :
    tpbpForced recs i = 1 := by
  unfold tpbpForced
  have hb : ((prevIdxBy GRecord.trip_id recs i).isNone ||
      (nextIdxBy GRecord.trip_id recs i).isNone) = true := by
    rcases h with h | h <;> simp [h]
  rw [if_pos hb]

theorem mem_tpbpGroup (recs : List GRecord) (rs : String × String) (k : Nat)
    (rk : GRecord) (h : recs.get? k = some rk) (hk : (rk.route_id, rk.stop_id) = rs) :
    tpbpForced recs k ∈ ((List.range recs.length).filter (fun j =>
      match recs.get? j with
      | some rr => decide ((rr.route_id, rr.stop_id) = rs)
      | none => false)).map (tpbpForced recs) := by
  apply List.mem_map_of_mem
  apply List.mem_filter.mpr
  constructor
  · apply List.mem_range.mpr
    by_contra hc
    rw [List.get?_eq_none.mpr (le_of_not_lt hc)] at h
    cases h
  · rw [h]
    simpa using hk

/-- Elements of the tp_bp group list are forced values of group rows. -/
theorem tpbpGroup_elem (recs : List GRecord) (rs : String × String) (x : Nat)
    (hx : x ∈ ((List.range recs.length).filter (fun j =>
      match recs.get? j with
      | some rr => decide ((rr.route_id, rr.stop_id) = rs)
      | none => false)).map (tpbpForced recs)) :
    ∃ (k : Nat) (rk : GRecord), recs.get? k = some rk ∧
      (rk.route_id, rk.stop_id) = rs ∧ tpbpForced recs k = x := by
  rcases List.mem_map.mp hx with ⟨k, hk, hval⟩
  have hpred := (List.mem_filter.mp hk).2
  cases hg : recs.get? k with
  | none => rw [hg] at hpred; cases hpred
  | some rk =>
    rw [hg] at hpred
    exact ⟨k, rk, hg, by simpa using hpred, hval⟩

theorem maxOptList_spec (l : List ℚ) :
    (l = [] ∧ maxOptList l = none) ∨
    (∃ m, maxOptList l = some m ∧ m ∈ l ∧ ∀ x ∈ l, x ≤ m) := by
  induction l with
  | nil => left; exact ⟨rfl, rfl⟩
  | cons a t ih =>
    right
    rcases ih with ⟨ht, hm⟩ | ⟨m, hm, hmem, hbound⟩
    · subst ht
      refine ⟨a, rfl, List.mem_singleton_self a, ?_⟩
      intro x hx
      rw [List.mem_singleton.mp hx]
    · refine ⟨max a m, ?_, ?_, ?_⟩
      · show maxOptList (a :: t) = some (max a m)
        unfold maxOptList
        rw [hm]
      · by_cases hle : a ≤ m
        · rw [max_eq_right hle]
          exact List.mem_cons_of_mem _ hmem
        · rw [max_eq_left (le_of_not_le hle)]
          exact List.mem_cons_self _ _
      · intro x hx
        rcases List.mem_cons.mp hx with rfl | hx2
        · exact le_max_left _ _
        · exact le_trans (hbound x hx2) (le_max_right _ _)

theorem mem_speedGroup_iff (rows : List CDRow) (sp : String × String) (v : ℚ) :
    v ∈ (rows.filter (fun r => r.stop_pair = sp)).filterMap
        (fun r => r.observed_speed_without_dwell) ↔
      ∃ rj ∈ rows, rj.stop_pair = sp ∧ rj.observed_speed_without_dwell = some v := by
  constructor
  · intro h
    rcases List.mem_filterMap.mp h with ⟨rj, hmem, hspeed⟩
    have h2 := List.mem_filter.mp hmem
    exact ⟨rj, h2.1, by simpa using h2.2, hspeed⟩
  · rintro ⟨rj, hmem, hsp, hspeed⟩
    exact List.mem_filterMap.mpr ⟨rj, List.mem_filter.mpr ⟨hmem, by simp [hsp]⟩, hspeed⟩

theorem pyDictStep_pred {κ ν : Type} [DecidableEq κ] (S : κ × ν → Prop)
    (acc : List (κ × ν)) (a : κ × ν) (hacc : ∀ kv ∈ acc, S kv) (ha : S a) :
    ∀ kv ∈ pyDictStep acc a, S kv := by
  intro kv hkv
  unfold pyDictStep at hkv
  by_cases hc : (acc.map Prod.fst).contains a.fst
  · rw [if_pos hc] at hkv
    rcases List.mem_map.mp hkv with ⟨kv3, h3, heq⟩
    by_cases he : kv3.fst = a.fst
    · rw [if_pos he] at heq
      have ha2 : (kv3.fst, a.snd) = a := by
        rw [he]
      rw [← heq, ha2]
      exact ha
    · rw [if_neg he] at heq
      rw [← heq]
      exact hacc kv3 h3
  · rw [if_neg hc] at hkv
    rcases List.mem_append.mp hkv with h3 | h3
    · exact hacc kv h3
    · rw [List.mem_singleton.mp h3]
      exact ha

theorem pyDict_foldl_pred {κ ν : Type} [DecidableEq κ] (S : κ × ν → Prop) :
    ∀ (l acc : List (κ × ν)), (∀ kv ∈ acc, S kv) → (∀ kv ∈ l, S kv) →
      ∀ kv ∈ l.foldl pyDictStep acc, S kv := by
  intro l
  induction l with
  | nil => intro acc hacc _ kv hkv; exact hacc kv hkv
  | cons a t ih =>
    intro acc hacc hl kv hkv
    rw [List.foldl_cons] at hkv
    exact ih (pyDictStep acc a)
      (pyDictStep_pred S acc a hacc (hl a (List.mem_cons_self a t)))
      (fun kv2 h2 => hl kv2 (List.mem_cons_of_mem a h2)) kv hkv

/-- Every entry of a Python dict comes from the pair list that built it. -/
theorem pyDict_subset {κ ν : Type} [DecidableEq κ] (l : List (κ × ν)) :
    ∀ kv ∈ pyDict l, kv ∈ l :=
  pyDict_foldl_pred (fun kv => kv ∈ l) l [] (fun _ h => absurd h (List.not_mem_nil _))
    (fun _ h => h)

theorem pyDictStep_keeps {κ ν : Type} [DecidableEq κ] (acc : List (κ × ν))
    (a : κ × ν) (k : κ) (h : ∃ v, (k, v) ∈ acc) :
    ∃ v, (k, v) ∈ pyDictStep acc a := by
  rcases h with ⟨v, hv⟩
  unfold pyDictStep
  by_cases hc : (acc.map Prod.fst).contains a.fst
  · rw [if_pos hc]
    by_cases he : k = a.fst
    · refine ⟨a.snd, ?_⟩
      have := List.mem_map_of_mem
        (fun kv2 : κ × ν => if kv2.fst = a.fst then (kv2.fst, a.snd) else kv2) hv
      simpa [he] using this
    · refine ⟨v, ?_⟩
      have := List.mem_map_of_mem
        (fun kv2 : κ × ν => if kv2.fst = a.fst then (kv2.fst, a.snd) else kv2) hv
      simpa [he] using this
  · rw [if_neg hc]
    exact ⟨v, List.mem_append_left _ hv⟩

theorem pyDictStep_adds {κ ν : Type} [DecidableEq κ] (acc : List (κ × ν))
    (a : κ × ν) : ∃ v, (a.fst, v) ∈ pyDictStep acc a := by
  unfold pyDictStep
  by_cases hc : (acc.map Prod.fst).contains a.fst
  · rw [if_pos hc]
    have hkey : a.fst ∈ acc.map Prod.fst := by
      rcases List.contains_iff_exists_mem_beq.mp hc with ⟨x, hx, hbeq⟩
      have hxe : a.fst = x := by simpa using hbeq
      rw [hxe]
      exact hx
    rcases List.mem_map.mp hkey with ⟨kv0, h0, hfst⟩
    refine ⟨a.snd, ?_⟩
    have hm := List.mem_map_of_mem
      (fun kv2 : κ × ν => if kv2.fst = a.fst then (kv2.fst, a.snd) else kv2) h0
    simpa [hfst] using hm
  · rw [if_neg hc]
    exact ⟨a.snd, List.mem_append_right _ (List.mem_singleton_self _)⟩

theorem pyDict_key_present {κ ν : Type} [DecidableEq κ] :
    ∀ (l acc : List (κ × ν)) (k : κ),
      ((∃ v, (k, v) ∈ acc) ∨ ∃ v, (k, v) ∈ l) →
      ∃ v, (k, v) ∈ l.foldl pyDictStep acc := by
  intro l
  induction l with
  | nil =>
    intro acc k h
    rcases h with h | ⟨v, hv⟩
    · exact h
    · cases hv
  | cons a t ih =>
    intro acc k h
    rw [List.foldl_cons]
    apply ih
    rcases h with hacc | ⟨v, hv⟩
    · exact Or.inl (pyDictStep_keeps acc a k hacc)
    · rcases List.mem_cons.mp hv with heq | htail
      · left
        have hk : k = a.fst := congrArg Prod.fst heq
        rw [hk]
        exact pyDictStep_adds acc a
      · exact Or.inr ⟨v, htail⟩

/-- A value read from a Python dict is an entry of the dict. -/
theorem dictGet_mem {κ ν : Type} [DecidableEq κ] (d : List (κ × ν)) (k : κ)
    (v : ν) (h : dictGet d k = some v) : (k, v) ∈ d := by
  unfold dictGet at h
  cases hf : d.find? (fun kv => kv.fst = k) with
  | none => rw [hf] at h; cases h
  | some kv =>
    rw [hf] at h
    have hmem := List.mem_of_find?_eq_some hf
    have hkey : kv.fst = k := by simpa using List.find?_some hf
    have hv : kv.snd = v := by simpa using h
    have : kv = (k, v) := by
      rw [← hkey, ← hv]
    rw [← this]
    exact hmem

theorem dictGet_isSome {κ ν : Type} [DecidableEq κ] (d : List (κ × ν)) (k : κ)
    (h : ∃ v, (k, v) ∈ d) : (dictGet d k).isSome := by
  rcases h with ⟨v, hv⟩
  have hf : (d.find? (fun kv => kv.fst = k)).isSome :=
    List.find?_isSome.mpr ⟨(k, v), hv, by simp⟩
  unfold dictGet
  cases hfind : d.find? (fun kv => kv.fst = k) with
  | none => rw [hfind] at hf; cases hf
  | some kv => rfl

theorem dropDupFirst_mem_of_mem {α : Type} [DecidableEq α] :
    ∀ (l acc : List α) (x : α), (x ∈ acc ∨ x ∈ l) →
      x ∈ l.foldl (fun acc2 a => if a ∈ acc2 then acc2 else acc2 ++ [a]) acc := by
  intro l
  induction l with
  | nil =>
    intro acc x h
    rcases h with h | h
    · exact h
    · cases h
  | cons a t ih =>
    intro acc x h
    rw [List.foldl_cons]
    apply ih
    have hstep : ∀ y ∈ acc, y ∈ (if a ∈ acc then acc else acc ++ [a]) := by
      intro y hy
      by_cases hc : a ∈ acc
      · rw [if_pos hc]; exact hy
      · rw [if_neg hc]; exact List.mem_append_left _ hy
    rcases h with hacc | hmem
    · exact Or.inl (hstep x hacc)
    · rcases List.mem_cons.mp hmem with rfl | ht
      · left
        by_cases hc : x ∈ acc
        · rw [if_pos hc]; exact hc
        · rw [if_neg hc]; exact List.mem_append_right _ (List.mem_singleton_self _)
      · exact Or.inr ht

theorem mapM_except_all_ok {α β ε : Type} (f : α → Except ε β) :
    ∀ l : List α, (∀ a ∈ l, ∃ b, f a = Except.ok b) →
      ∃ l2, l.mapM f = Except.ok l2 := by
  intro l
  induction l with
  | nil => exact fun _ => ⟨[], rfl⟩
  | cons a t ih =>
    intro h
    rcases h a (List.mem_cons_self a t) with ⟨b, hb⟩
    rcases ih (fun x hx => h x (List.mem_cons_of_mem a hx)) with ⟨l2, hl2⟩
    exact ⟨b :: l2, by rw [List.mapM_cons, hb, hl2]; rfl⟩

theorem stopCoords_isSome (stops : List StopRow) (x : String)
    (h : ∃ srow ∈ stops, srow.stop_id = x) :
    (dictGet (stopCoordsLookup stops) x).isSome := by
  rcases h with ⟨srow, hmem, hid⟩
  apply dictGet_isSome
  show ∃ v, (x, v) ∈ pyDict (dropDupFirst (stops.map
    (fun s2 => (s2.stop_id, (s2.stop_lat, s2.stop_lon)))))
  apply pyDict_key_present
  right
  refine ⟨(srow.stop_lat, srow.stop_lon), ?_⟩
  show _ ∈ dropDupFirst _
  unfold dropDupFirst
  apply dropDupFirst_mem_of_mem _ [] _ (Or.inr ?_)
  have hm := List.mem_map_of_mem
    (fun s2 : StopRow => (s2.stop_id, (s2.stop_lat, s2.stop_lon))) hmem
  simpa [hid] using hm

theorem lookupCoord_ok (stops : List StopRow) (x : String)
    (h : (dictGet (stopCoordsLookup stops) x).isSome) :
    ∃ c, lookupCoord stops x = Except.ok c := by
  unfold lookupCoord
  cases hc : dictGet (stopCoordsLookup stops) x with
  | none => rw [hc] at h; cases h
  | some c => exact ⟨c, rfl⟩

theorem segmentsOf_ok (stops : List StopRow) (sids : List String)
    (h : ∀ s ∈ sids, (dictGet (stopCoordsLookup stops) s).isSome) :
    ∃ segs, segmentsOf stops sids = Except.ok segs := by
  unfold segmentsOf
  have hall : ∀ ab ∈ sids.zip sids.tail, ∃ b, (fun (ab : String × String) => do
      let ca ← lookupCoord stops ab.fst
      let cb ← lookupCoord stops ab.snd
      return (ab, [ca, cb])) ab = Except.ok b := by
    intro ab hab
    obtain ⟨x, y⟩ := ab
    have hxy := List.of_mem_zip hab
    rcases lookupCoord_ok stops x (h x hxy.1) with ⟨cx, hcx⟩
    rcases lookupCoord_ok stops y (h y (List.tail_subset sids hxy.2)) with ⟨cy, hcy⟩
    refine ⟨((x, y), [cx, cy]), ?_⟩
    show (do
      let ca ← lookupCoord stops x
      let cb ← lookupCoord stops y
      return ((x, y), [ca, cb])) = Except.ok ((x, y), [cx, cy])
    rw [hcx, hcy]
    rfl
  rcases mapM_except_all_ok _ (sids.zip sids.tail) hall with ⟨l2, hl2⟩
  exact ⟨pyDict l2, by rw [hl2]; rfl⟩

/-- Every stop id in a pattern stop list is the stop id of some record. -/
theorem patternStops_stop_ids (recs : List GRecord) (p : String)
    (sids : List String) (h : (p, sids) ∈ patternStopsLookup recs) :
    ∀ x ∈ sids, ∃ r ∈ recs, r.stop_id = x := by
  intro x hx
  have h1 := pyDict_subset _ _ h
  rcases List.mem_filterMap.mp h1 with ⟨i, _, hsome⟩
  cases hpa : patternAt recs i with
  | none => rw [hpa] at hsome; cases hsome
  | some p2 =>
    cases hhb : (recHash recs i).bind (dictGet (hashStopsLookup recs)) with
    | none => rw [hpa, hhb] at hsome; cases hsome
    | some s2 =>
      rw [hpa, hhb] at hsome
      have hs2 : s2 = sids := by
        have := Option.some.inj hsome
        exact congrArg Prod.snd this
      cases hrh : recHash recs i with
      | none => rw [hrh] at hhb; cases hhb
      | some hv =>
        rw [hrh] at hhb
        simp only [Option.some_bind] at hhb
        have hmem2 := dictGet_mem _ _ _ hhb
        have hmem3 := pyDict_subset _ _ hmem2
        rcases List.mem_map.mp hmem3 with ⟨ts, hts, heq2⟩
        have hval : ts.snd = s2 := congrArg Prod.snd heq2
        rcases List.mem_map.mp hts with ⟨t, _, heq3⟩
        have hts2 : ts.snd = stop_ids_of_trip recs t := by
          rw [← heq3]
        have hxin : x ∈ stop_ids_of_trip recs t := by
          rw [← hts2, hval, hs2]
          exact hx
        rcases List.mem_map.mp hxin with ⟨r, hr, hrid⟩
        exact ⟨r, List.mem_of_mem_filter hr, hrid⟩

/-- The per-pattern walk expressed against the original shape: segment k gets
the slice of the original shape between its global match indices and keeps its
stop polyline when the slice has at most two points. -/
theorem improveSegments_global (shape0 : List (ℚ × ℚ)) :
    ∀ (segs : List ((String × String) × List (ℚ × ℚ))) (off : Nat),
      improveSegments (shape0.drop off) segs =
        (List.zip (globalMatches shape0 off segs) segs).map (fun pe =>
          (pe.snd.fst,
            if 2 < ((shape0.drop pe.fst.fst).take (pe.fst.snd + 1 - pe.fst.fst)).length
            then (shape0.drop pe.fst.fst).take (pe.fst.snd + 1 - pe.fst.fst)
            else pe.snd.snd)) := by
  intro segs
  induction segs with
  | nil => intro off; rfl
  | cons a rest ih =>
    intro off
    obtain ⟨k, cl⟩ := a
    simp only [improveSegments, globalMatches, List.zip_cons_cons, List.map_cons]
    have hdropf : (shape0.drop off).drop (find_nearest_point (shape0.drop off) cl.headI) =
        shape0.drop (off + find_nearest_point (shape0.drop off) cl.headI) := by
      rw [List.drop_drop, Nat.add_comm]
    have hdropl : (shape0.drop off).drop (find_nearest_point (shape0.drop off) cl.getLastI) =
        shape0.drop (off + find_nearest_point (shape0.drop off) cl.getLastI) := by
      rw [List.drop_drop, Nat.add_comm]
    have hslice : ((shape0.drop off).drop (find_nearest_point (shape0.drop off) cl.headI)).take
          (find_nearest_point (shape0.drop off) cl.getLastI + 1 -
            find_nearest_point (shape0.drop off) cl.headI) =
        (shape0.drop (off + find_nearest_point (shape0.drop off) cl.headI)).take
          (off + find_nearest_point (shape0.drop off) cl.getLastI + 1 -
            (off + find_nearest_point (shape0.drop off) cl.headI)) := by
      rw [hdropf]
      congr 1
      omega
    rw [hslice, hdropl, ih (off + find_nearest_point (shape0.drop off) cl.getLastI)]

/-- Every global match pair of the walk lies at or after the offset. -/
theorem globalMatches_ge_off (shape0 : List (ℚ × ℚ)) :
    ∀ (segs : List ((String × String) × List (ℚ × ℚ))) (off : Nat) (pe : Nat × Nat),
      pe ∈ globalMatches shape0 off segs → off ≤ pe.fst ∧ off ≤ pe.snd := by
  intro segs
  induction segs with
  | nil =>
    intro off pe hpe
    simp [globalMatches] at hpe
  | cons a rest ih =>
    intro off pe hpe
    obtain ⟨k, cl⟩ := a
    simp only [globalMatches] at hpe
    rcases List.mem_cons.mp hpe with rfl | htail
    · exact ⟨Nat.le_add_right off _, Nat.le_add_right off _⟩
    · have h2 := ih (off + find_nearest_point (shape0.drop off) cl.getLastI) pe htail
      exact ⟨le_trans (Nat.le_add_right off _) h2.1,
             le_trans (Nat.le_add_right off _) h2.2⟩

/-- Consecutive segments never move backwards along the shape: the global end
match of a segment bounds both matches of the next segment. -/
theorem globalMatches_chain (shape0 : List (ℚ × ℚ)) :
    ∀ (segs : List ((String × String) × List (ℚ × ℚ))) (off k a b a2 b2 : Nat),
      (globalMatches shape0 off segs).get? k = some (a, b) →
      (globalMatches shape0 off segs).get? (k + 1) = some (a2, b2) →
      b ≤ a2 ∧ b ≤ b2 := by
  intro segs
  induction segs with
  | nil =>
    intro off k a b a2 b2 h1 _
    simp [globalMatches] at h1
  | cons hd rest ih =>
    intro off k a b a2 b2 h1 h2
    obtain ⟨kk, cl⟩ := hd
    simp only [globalMatches] at h1 h2
    cases k with
    | zero =>
      rw [List.get?_cons_zero] at h1
      rw [List.get?_cons_succ] at h2
      have hb : b = off + find_nearest_point (shape0.drop off) cl.getLastI :=
        (congrArg Prod.snd (Option.some.inj h1)).symm
      have hmem := List.get?_mem h2
      have hge := globalMatches_ge_off shape0 rest
        (off + find_nearest_point (shape0.drop off) cl.getLastI) (a2, b2) hmem
      rw [hb]
      exact hge
    | succ k2 =>
      rw [List.get?_cons_succ] at h1 h2
      exact ih (off + find_nearest_point (shape0.drop off) cl.getLastI)
        k2 a b a2 b2 h1 h2

/-! ## Claim theorems -/

/-- C3: on every input, constructing Metric_Calculation raises AttributeError
before any metrics table is completed: line 46 of metric_calculation.py reads
self.gtfs_stop_metrics while only self.stop_metrics was ever assigned, so the
constructor never returns a state and the three tables are never produced. -/
theorem C3_mc_init_attribute_error (shapes : List ShapeRow)
    (gtfs_records : List MCRecord) (avl_records : Option (List AVLRecord))
    (data_option : List String) :
    mc_init shapes gtfs_records avl_records data_option =
      Except.error (PyError.attributeError "gtfs_stop_metrics") := rfl

/-- C8: on_time_performance raises ValueError exactly at its guard, before any
metric column is written (the error return carries no updated state), when
no_earlier_than is positive or no_later_than is negative; in particular the
call with bounds 2 and 5 fails, and the Python defaults are -1 and 5. -/
theorem C8_on_time_performance_bounds :
    (∀ (ne nl : Int) (st : OTPState), ne > 0 ∨ nl < 0 →
      on_time_performance ne nl st = Except.error PyError.valueError) ∧
    (∀ st : OTPState, on_time_performance 2 5 st = Except.error PyError.valueError) ∧
    (∀ st : OTPState, on_time_performance_default st = on_time_performance (-1) 5 st) := by
  refine ⟨fun ne nl st h => ?_, fun st => ?_, fun st => rfl⟩
  · unfold on_time_performance
    rw [if_pos h]
  · unfold on_time_performance
    rw [if_pos (by norm_num : (2 : Int) > 0 ∨ (5 : Int) < 0)]

/-- Witness for C8: the failing call of the spec scenario, obtained by
applying the theorem at bounds 2 and 5 and a concrete state. -/
theorem C8_witness :
    on_time_performance 2 5 c8state = Except.error PyError.valueError :=
  C8_on_time_performance_bounds.1 2 5 c8state (Or.inl (by norm_num))

/-- C10: after add_branchpoints, every pre-existing column of the stored
records table is unchanged (projecting the base record of each output row
gives back the input table), and the helper column route_stop, holding the
(route_id, stop_id) tuples, is still present because the final drop only
rebinds a local variable. -/
theorem C10_add_branchpoints_frame (recs : List GRecord) :
    (add_branchpoints recs).map BRecord.base = recs ∧
    (add_branchpoints recs).map BRecord.route_stop =
      recs.map (fun r => (r.route_id, r.stop_id)) := by
  constructor
  · unfold add_branchpoints
    rw [List.map_map]
    have h1 : (BRecord.base ∘ fun ir : Nat × GRecord =>
        ({ base := ir.snd, branchpoint := branchpointFlag recs ir.fst,
           tp_bp := tpbpLookup recs (ir.snd.route_id, ir.snd.stop_id),
           route_stop := (ir.snd.route_id, ir.snd.stop_id) } : BRecord)) =
        (fun p : Nat × GRecord => p.snd) := rfl
    rw [h1, List.enum_map_snd]
  · unfold add_branchpoints
    rw [List.map_map]
    have h2 : (BRecord.route_stop ∘ fun ir : Nat × GRecord =>
        ({ base := ir.snd, branchpoint := branchpointFlag recs ir.fst,
           tp_bp := tpbpLookup recs (ir.snd.route_id, ir.snd.stop_id),
           route_stop := (ir.snd.route_id, ir.snd.stop_id) } : BRecord)) =
        (fun p : Nat × GRecord => (p.snd.route_id, p.snd.stop_id)) := rfl
    rw [h2]
    exact enum_map_snd_comp recs (fun r => (r.route_id, r.stop_id))

/-- C1: evaluation of generate_patterns at the failing input c1records.  The
trips t1 and t3 have identical ordered stop sequences and t2 a different one,
the hash is injective on this input (the distinct counts agree, so this is not
a collision artifact), yet t3 is assigned the pattern R-0-2 of t2 instead of
the pattern R-0-1 of t1: hash_count is forward-filled positionally over the
sorted records rather than propagated through the hash of each trip, so the
claimed pattern-sequence correspondence fails in both directions. -/
theorem C1_pattern_ffill_divergence :
    stop_ids_of_trip c1records "t1" = stop_ids_of_trip c1records "t3" ∧
    stop_ids_of_trip c1records "t2" ≠ stop_ids_of_trip c1records "t3" ∧
    nUniqueHashes c1records = nUniqueStopSeqs c1records ∧
    (c1records.get? 0).map GRecord.trip_id = some "t1" ∧
    (c1records.get? 2).map GRecord.trip_id = some "t2" ∧
    (c1records.get? 4).map GRecord.trip_id = some "t3" ∧
    patternAt c1records 0 = some "R-0-1" ∧
    patternAt c1records 2 = some "R-0-2" ∧
    patternAt c1records 4 = some "R-0-2" := by decide

/-- C2: validate_data performs no cleanup at all.  Whenever it returns, it
returns its input unchanged (the dropna and astype results are bound to a
rebound local and discarded), and at the concrete input c2example the row
with a null stop_id survives and the string-typed stop_lat cell keeps its
raw type, contradicting the claimed coercion and row dropping. -/
theorem C2_validate_data_no_cleanup :
    (∀ data : List RawTable, validate_data data = Except.ok data ∨
      ∃ e, validate_data data = Except.error e) ∧
    validate_data c2example = Except.ok c2example ∧
    c2example.map (fun t => t.rows) =
      [[[RawCell.null, RawCell.str "x", RawCell.floatval 1, RawCell.floatval 2],
        [RawCell.str "s1", RawCell.str "n1", RawCell.str "3", RawCell.floatval 2]]] := by
  exact ⟨fun data => mapM_except_id validateTable validateTable_ok_or_error data,
    by decide, rfl⟩

/-- C4 counterexample: in the scenario of the claim (route R1 over A, B, C, D
and route R2 over A, B, E, D), the trip of R1 does NOT get branchpoint 1 at
stop C: the code, agreeing with the formula of the claim, gives 0 at C
because R(C) is a subset of both R(B) and R(D), and gives 1 at D instead. -/
theorem C4_scenario_counterexample :
    ¬ (((add_branchpoints c4records).get? 2).map
        (fun b => (b.base.trip_id, b.base.stop_id, b.branchpoint)) =
      some ("T1", "C", 1)) ∧
    ((add_branchpoints c4records).get? 2).map
        (fun b => (b.base.trip_id, b.base.stop_id, b.branchpoint)) =
      some ("T1", "C", 0) := by decide

/-- C4 (amended): a stop event with a predecessor and a successor in the same
trip gets branchpoint 1 exactly when the route-set differences of the claim
say so; and in the scenario, the trip of R1 gets branchpoint 1 at B and at D,
and 0 at A and at C (not at C as the claim stated: the routes reconverge at
D, so D is the detected branchpoint). -/
theorem C4_branchpoint_rule_amended :
    (∀ (recs : List GRecord) (i pi ni : Nat) (r pr nr : GRecord),
      recs.get? i = some r →
      prevIdxBy GRecord.trip_id recs i = some pi → recs.get? pi = some pr →
      nextIdxBy GRecord.trip_id recs i = some ni → recs.get? ni = some nr →
      (((add_branchpoints recs).get? i).map BRecord.branchpoint = some 1 ↔
        (0 < (routesServing recs r.stop_id \ routesServing recs nr.stop_id).card +
             (routesServing recs r.stop_id \ routesServing recs pr.stop_id).card ∧
         ¬ (routesServing recs r.stop_id \ routesServing recs pr.stop_id =
              routesServing recs r.stop_id \ routesServing recs nr.stop_id ∧
            (routesServing recs r.stop_id \ routesServing recs pr.stop_id).Nonempty)))) ∧
    (add_branchpoints c4records).map
        (fun b => (b.base.trip_id, b.base.stop_id, b.branchpoint)) =
      [("T1", "A", 0), ("T1", "B", 1), ("T1", "C", 0), ("T1", "D", 1),
       ("T2", "A", 0), ("T2", "B", 1), ("T2", "E", 0), ("T2", "D", 1)] := by
  constructor
  · intro recs i pi ni r pr nr hi hp hpr hn hnr
    rw [add_branchpoints_get? recs i r hi]
    simp only [Option.map_some', Option.some.injEq]
    unfold branchpointFlag
    rw [routesDiffNext_interior recs i ni r nr hi hn hnr,
        routesDiffPrev_interior recs i pi r pr hi hp hpr]
    simp only [diffLen, Option.elim]
    exact branchpoint_bool_bridge
      (routesServing recs r.stop_id \ routesServing recs pr.stop_id)
      (routesServing recs r.stop_id \ routesServing recs nr.stop_id)
  · decide

/-- Witness for C4: the rule applied at stop B of the trip of R1 in the
concrete scenario; the right side of the instantiated equivalence holds by
computation, so B is a branchpoint. -/
theorem C4_witness :
    ((add_branchpoints c4records).get? 1).map BRecord.branchpoint = some 1 :=
  (C4_branchpoint_rule_amended.1 c4records 1 0 2
    { trip_id := "T1", route_id := "R1", direction_id := 0, stop_id := "B",
      stop_sequence := 2, arrival_time := 60, departure_time := 60, timepoint := 0 }
    { trip_id := "T1", route_id := "R1", direction_id := 0, stop_id := "A",
      stop_sequence := 1, arrival_time := 0, departure_time := 0, timepoint := 0 }
    { trip_id := "T1", route_id := "R1", direction_id := 0, stop_id := "C",
      stop_sequence := 3, arrival_time := 120, departure_time := 120, timepoint := 0 }
    rfl (by decide) rfl (by decide) rfl).mpr (by decide)

/-- C5: after add_branchpoints, (1) the first and the last stop event of every
trip (the rows with no earlier, respectively no later, row of the same trip)
have tp_bp 1; (2) all records sharing a (route_id, stop_id) pair carry the
same tp_bp value; and (3) that common value is the maximum of the forced
tp_bp column over the rows of the pair (attained at some row and bounding
every row), so if any record of the pair had 1 all have 1. -/
theorem C5_tp_bp_invariants :
    (∀ (recs : List GRecord) (i : Nat) (r : GRecord), recs.get? i = some r →
      ((prevIdxBy GRecord.trip_id recs i).isNone ∨
       (nextIdxBy GRecord.trip_id recs i).isNone) →
      ((add_branchpoints recs).get? i).map BRecord.tp_bp = some 1) ∧
    (∀ (recs : List GRecord) (i j : Nat) (ri rj : GRecord),
      recs.get? i = some ri → recs.get? j = some rj →
      ri.route_id = rj.route_id → ri.stop_id = rj.stop_id →
      ((add_branchpoints recs).get? i).map BRecord.tp_bp =
        ((add_branchpoints recs).get? j).map BRecord.tp_bp) ∧
    (∀ (recs : List GRecord) (i : Nat) (ri : GRecord), recs.get? i = some ri →
      ∃ (k : Nat) (rk : GRecord), recs.get? k = some rk ∧
        rk.route_id = ri.route_id ∧ rk.stop_id = ri.stop_id ∧
        ((add_branchpoints recs).get? i).map BRecord.tp_bp =
          some (tpbpForced recs k) ∧
        (∀ (k2 : Nat) (rk2 : GRecord), recs.get? k2 = some rk2 →
          rk2.route_id = ri.route_id → rk2.stop_id = ri.stop_id →
          tpbpForced recs k2 ≤ tpbpForced recs k)) := by
  refine ⟨?_, ?_, ?_⟩
  · intro recs i r hi hedge
    rw [add_branchpoints_get? recs i r hi]
    simp only [Option.map_some', Option.some.injEq]
    apply Nat.le_antisymm
    · apply natMaxList_le
      intro x hx
      rcases tpbpGroup_elem recs (r.route_id, r.stop_id) x hx with ⟨k, rk, _, _, hval⟩
      rw [← hval]
      exact tpbpForced_le_one recs k
    · have h1 : tpbpForced recs i = 1 := tpbpForced_eq_one_of_edge recs i hedge
      have hm := mem_tpbpGroup recs (r.route_id, r.stop_id) i r hi rfl
      rw [h1] at hm
      exact le_natMaxList hm
  · intro recs i j ri rj hi hj hroute hstop
    rw [add_branchpoints_get? recs i ri hi, add_branchpoints_get? recs j rj hj]
    simp only [Option.map_some', Option.some.injEq]
    rw [hroute, hstop]
  · intro recs i ri hi
    rw [add_branchpoints_get? recs i ri hi]
    simp only [Option.map_some', Option.some.injEq]
    have hne : ((List.range recs.length).filter (fun j =>
        match recs.get? j with
        | some rr => decide ((rr.route_id, rr.stop_id) = (ri.route_id, ri.stop_id))
        | none => false)).map (tpbpForced recs) ≠ [] :=
      List.ne_nil_of_mem (mem_tpbpGroup recs (ri.route_id, ri.stop_id) i ri hi rfl)
    have hmem := natMaxList_mem hne
    rcases tpbpGroup_elem recs (ri.route_id, ri.stop_id) _ hmem with ⟨k, rk, hk, hkey, hval⟩
    refine ⟨k, rk, hk, ?_, ?_, ?_, ?_⟩
    · exact (Prod.mk.injEq _ _ _ _ ▸ hkey).1
    · exact (Prod.mk.injEq _ _ _ _ ▸ hkey).2
    · rw [hval]; rfl
    · intro k2 rk2 hk2 hroute2 hstop2
      rw [hval]
      exact le_natMaxList (mem_tpbpGroup recs (ri.route_id, ri.stop_id) k2 rk2 hk2
        (by rw [hroute2, hstop2]))

/-- Witness for C5: the first record of the single trip of c5records has
tp_bp 1, by the first part of the theorem. -/
theorem C5_witness :
    ((add_branchpoints c5records).get? 0).map BRecord.tp_bp = some 1 :=
  C5_tp_bp_invariants.1 c5records 0
    { trip_id := "t1", route_id := "R", direction_id := 0, stop_id := "A",
      stop_sequence := 1, arrival_time := 0, departure_time := 0, timepoint := 0 }
    rfl (Or.inl (by decide))

/-- C9: for every stop-metrics row, congestion_delay sets free_flow_speed to
the maximum observed_speed_without_dwell over the rows sharing the stop_pair,
capped at 65 mph, and to 30 mph when every such speed is missing; and when
the inputs of the row are defined and positive, vehicle_congestion_delay is
(observed_travel_time - free_flow_travel_time) / (stop_spacing x FT_TO_MI)
and passenger_congestion_delay is vehicle_congestion_delay x passenger_load,
with the travel times obtained from the spacing and the speeds. -/
theorem C9_congestion_delay (rows : List CDRow) (i : Nat) (r : CDRow)
    (hi : rows.get? i = some r) :
    ∃ out, (congestion_delay rows).get? i = some out ∧ out.base = r ∧
      ((∃ m, out.free_flow_speed = some (min m MAX_SPEED_MPH) ∧
          (∃ rj ∈ rows, rj.stop_pair = r.stop_pair ∧
            rj.observed_speed_without_dwell = some m) ∧
          (∀ rj ∈ rows, rj.stop_pair = r.stop_pair →
            ∀ v, rj.observed_speed_without_dwell = some v → v ≤ m)) ∨
        (out.free_flow_speed = some MEAN_SPEED_MPH ∧
          (∀ rj ∈ rows, rj.stop_pair = r.stop_pair →
            rj.observed_speed_without_dwell = none))) ∧
      (∀ d s p, r.stop_spacing = some d → r.observed_speed_without_dwell = some s →
        r.passenger_load = some p → d ≠ 0 → 0 < s →
        ∃ ffs, out.free_flow_speed = some ffs ∧ 0 < ffs ∧
          out.observed_travel_time = some (d / (s / FT_PER_MIN_TO_MPH)) ∧
          out.free_flow_travel_time = some (d / (ffs / FT_PER_MIN_TO_MPH)) ∧
          out.vehicle_congestion_delay = some
            ((d / (s / FT_PER_MIN_TO_MPH) - d / (ffs / FT_PER_MIN_TO_MPH)) /
              (d * FEET_TO_MILES)) ∧
          out.passenger_congestion_delay = some
            ((d / (s / FT_PER_MIN_TO_MPH) - d / (ffs / FT_PER_MIN_TO_MPH)) /
              (d * FEET_TO_MILES) * p)) := by
  refine ⟨{ base := r,
            free_flow_speed := some (ffsOf rows r.stop_pair),
            free_flow_travel_time := optDiv r.stop_spacing
              (some (ffsOf rows r.stop_pair / FT_PER_MIN_TO_MPH)),
            observed_travel_time := optDiv r.stop_spacing
              (optDiv r.observed_speed_without_dwell (some FT_PER_MIN_TO_MPH)),
            vehicle_congestion_delay := optDiv
              (optSub
                (optDiv r.stop_spacing
                  (optDiv r.observed_speed_without_dwell (some FT_PER_MIN_TO_MPH)))
                (optDiv r.stop_spacing
                  (some (ffsOf rows r.stop_pair / FT_PER_MIN_TO_MPH))))
              (optMul r.stop_spacing (some FEET_TO_MILES)),
            passenger_congestion_delay := optMul
              (optDiv
                (optSub
                  (optDiv r.stop_spacing
                    (optDiv r.observed_speed_without_dwell (some FT_PER_MIN_TO_MPH)))
                  (optDiv r.stop_spacing
                    (some (ffsOf rows r.stop_pair / FT_PER_MIN_TO_MPH))))
                (optMul r.stop_spacing (some FEET_TO_MILES)))
              r.passenger_load }, ?_, rfl, ?_, ?_⟩
  · unfold congestion_delay
    rw [get?_map', hi]
    rfl
  · rcases maxOptList_spec ((rows.filter (fun r2 => r2.stop_pair = r.stop_pair)).filterMap
        (fun r2 => r2.observed_speed_without_dwell)) with ⟨hempty, hnone⟩ | ⟨m, hm, hmem, hbound⟩
    · right
      constructor
      · show some (ffsOf rows r.stop_pair) = some MEAN_SPEED_MPH
        unfold ffsOf
        rw [hnone]
      · intro rj hj hsp
        cases hs : rj.observed_speed_without_dwell with
        | none => rfl
        | some v =>
          exfalso
          have hv : v ∈ (rows.filter (fun r2 => r2.stop_pair = r.stop_pair)).filterMap
              (fun r2 => r2.observed_speed_without_dwell) :=
            (mem_speedGroup_iff rows r.stop_pair v).mpr ⟨rj, hj, hsp, hs⟩
          rw [hempty] at hv
          cases hv
    · left
      refine ⟨m, ?_, (mem_speedGroup_iff rows r.stop_pair m).mp hmem, ?_⟩
      · show some (ffsOf rows r.stop_pair) = some (min m MAX_SPEED_MPH)
        unfold ffsOf
        rw [hm]
      · intro rj hj hsp v hv
        exact hbound v ((mem_speedGroup_iff rows r.stop_pair v).mpr ⟨rj, hj, hsp, hv⟩)
  · intro d s p hd hs hp hd0 hs0
    have hrmem : r ∈ rows := List.get?_mem hi
    have hsin : s ∈ (rows.filter (fun r2 => r2.stop_pair = r.stop_pair)).filterMap
        (fun r2 => r2.observed_speed_without_dwell) :=
      (mem_speedGroup_iff rows r.stop_pair s).mpr ⟨r, hrmem, rfl, hs⟩
    have hffs : 0 < ffsOf rows r.stop_pair := by
      unfold ffsOf
      rcases maxOptList_spec ((rows.filter (fun r2 => r2.stop_pair = r.stop_pair)).filterMap
          (fun r2 => r2.observed_speed_without_dwell)) with ⟨hempty, _⟩ | ⟨m, hm, _, hbound⟩
      · rw [hempty] at hsin
        cases hsin
      · rw [hm]
        exact lt_min (lt_of_lt_of_le hs0 (hbound s hsin)) (by norm_num [MAX_SPEED_MPH])
    have hc : FT_PER_MIN_TO_MPH ≠ 0 := by norm_num [FT_PER_MIN_TO_MPH]
    have hsc : s / FT_PER_MIN_TO_MPH ≠ 0 := div_ne_zero (ne_of_gt hs0) hc
    have hfc : ffsOf rows r.stop_pair / FT_PER_MIN_TO_MPH ≠ 0 :=
      div_ne_zero (ne_of_gt hffs) hc
    have hdf : d * FEET_TO_MILES ≠ 0 :=
      mul_ne_zero hd0 (by norm_num [FEET_TO_MILES])
    refine ⟨ffsOf rows r.stop_pair, rfl, hffs, ?_, ?_, ?_, ?_⟩
    · rw [hd, hs]
      simp [optDiv, hc, hsc]
    · rw [hd]
      simp [optDiv, hfc]
    · rw [hd, hs]
      simp [optDiv, optSub, optMul, hc, hsc, hfc, hdf]
    · rw [hd, hs, hp]
      simp [optDiv, optSub, optMul, hc, hsc, hfc, hdf]

/-- C7: generate_patterns raises exactly when the number of distinct hashes
over the trips ordered stop-id lists differs from the number of distinct
ordered stop-id lists (the check of gtfs.py line 324, performed before
anything else); when the counts agree, and every stop id of the records
appears in the stops table as the referential closure of the loading step
guarantees, it completes and returns the patterns dict. -/
theorem C7_generate_patterns_error_iff (stops : List StopRow)
    (recs : List GRecord)
    (hcov : ∀ r ∈ recs, ∃ srow ∈ stops, srow.stop_id = r.stop_id) :
    ((∃ e, generate_patterns stops recs = Except.error e) ↔
      nUniqueHashes recs ≠ nUniqueStopSeqs recs) ∧
    (nUniqueHashes recs = nUniqueStopSeqs recs →
      ∃ pats, generate_patterns stops recs = Except.ok pats) := by
  have hok : nUniqueHashes recs = nUniqueStopSeqs recs →
      ∃ pats, generate_patterns stops recs = Except.ok pats := by
    intro heq
    unfold generate_patterns
    rw [if_neg (fun hne => hne heq)]
    apply mapM_except_all_ok
    intro ps hps
    have hsids := patternStops_stop_ids recs ps.fst ps.snd hps
    have hcovs : ∀ s ∈ ps.snd, (dictGet (stopCoordsLookup stops) s).isSome := by
      intro s hs
      rcases hsids s hs with ⟨r, hr, hrid⟩
      rcases hcov r hr with ⟨srow, hsm, hsid⟩
      exact stopCoords_isSome stops s ⟨srow, hsm, hsid.trans hrid⟩
    rcases segmentsOf_ok stops ps.snd hcovs with ⟨segs, hsegs⟩
    exact ⟨(ps.fst, segs), by rw [hsegs]; rfl⟩
  refine ⟨⟨?_, ?_⟩, hok⟩
  · rintro ⟨e, he⟩ heq
    rcases hok heq with ⟨pats, hpats⟩
    rw [hpats] at he
    cases he
  · intro hne
    refine ⟨PyError.valueError, ?_⟩
    unfold generate_patterns
    rw [if_pos hne]

/-- C6: for a pattern with an available shape (some of its trips has a shape
id known to the shapes table), improve_pattern_with_shapes rewrites its
segments by the walk improveSegments, whose k-th output is the slice of the
shape between the global nearest-match indices of the segment endpoints when
the slice has more than two points and the retained stop polyline otherwise;
the remaining shape is truncated at each end match, so consecutive global
match indices never move backwards along the shape. -/
theorem C6_improve_pattern_with_shapes
    (patterns : List (String × List ((String × String) × List (ℚ × ℚ))))
    (pt : String → List String) (ts : String → Option String)
    (sc : String → Option (List (ℚ × ℚ))) (kidx : Nat) (p : String)
    (segs : List ((String × String) × List (ℚ × ℚ))) (sid : String)
    (shape : List (ℚ × ℚ)) (hk : patterns.get? kidx = some (p, segs))
    (hsid : ((pt p).filterMap ts).head? = some sid)
    (hshape : sc sid = some shape) :
    (improve_pattern_with_shapes patterns pt ts sc).get? kidx =
      some (p, improveSegments shape segs) ∧
    improveSegments shape segs =
      (List.zip (globalMatches shape 0 segs) segs).map (fun pe =>
        (pe.snd.fst,
          if 2 < ((shape.drop pe.fst.fst).take (pe.fst.snd + 1 - pe.fst.fst)).length
          then (shape.drop pe.fst.fst).take (pe.fst.snd + 1 - pe.fst.fst)
          else pe.snd.snd)) ∧
    (∀ (k a b a2 b2 : Nat), (globalMatches shape 0 segs).get? k = some (a, b) →
      (globalMatches shape 0 segs).get? (k + 1) = some (a2, b2) →
      b ≤ a2 ∧ b ≤ b2) := by
  refine ⟨?_, ?_, fun k a b a2 b2 h1 h2 =>
    globalMatches_chain shape segs 0 k a b a2 b2 h1 h2⟩
  · unfold improve_pattern_with_shapes
    rw [get?_map', hk]
    simp only [Option.map_some', hsid, hshape]
  · have h0 := improveSegments_global shape segs 0
    rw [List.drop_zero] at h0
    exact h0

/-- Witness for C6: the theorem applied to a concrete one-pattern dict with a
seven-point shape. -/
theorem C6_witness :
    (improve_pattern_with_shapes c6patterns c6pattern_trips c6trip_shape
        c6shape_coords).get? 0 = some ("P1", improveSegments c6shape c6segments) :=
  (C6_improve_pattern_with_shapes c6patterns c6pattern_trips c6trip_shape
    c6shape_coords 0 "P1" c6segments "S1" c6shape rfl (by decide) (by decide)).1

/-- Witness for C7: at the concrete one-trip table the referential coverage
holds and the counts agree, so the theorem yields a successful run. -/
theorem C7_witness :
    ∃ pats, generate_patterns c7stops c7records = Except.ok pats :=
  (C7_generate_patterns_error_iff c7stops c7records (by decide)).2 (by decide)

/-- Witness for C9: the theorem applied to the first row of the concrete
two-row table c9rows. -/
theorem C9_witness :
    ∃ out, (congestion_delay c9rows).get? 0 = some out ∧
      out.base = { stop_pair := ("A", "B"), stop_spacing := some 1000,
                   observed_speed_without_dwell := some 20,
                   passenger_load := some 5 } := by
  rcases C9_congestion_delay c9rows 0
      { stop_pair := ("A", "B"), stop_spacing := some 1000,
        observed_speed_without_dwell := some 20, passenger_load := some 5 }
      rfl with ⟨out, h1, h2, _, _⟩
  exact ⟨out, h1, h2⟩

end Rove
